import Mathlib

/-!
Shallow embedding of `src/main.py` (a Flappy-Bird clone built on pygame).

Modelling conventions:
* `pygame.Rect` is an integer rectangle stored as `left/top/w/h`; the derived
  accessors (`right`, `bottom`, `centerx`, `centery`) and the attribute setters
  used by the program (`midtop=`, `midbottom=`, `center=`) follow pygame's
  C implementation, which computes `x + (w >> 1)` for centers (floor division,
  identical to Lean's `Int` division for the positive sizes this program uses).
* Python `float` values in this program (`bird_movement`, the two volume
  levels) are modelled as exact rationals `ℚ`; every literal the program uses
  (`0.2425`, `-6`, `0.05`, `0.4`, `0.5`) is an exact decimal, and `int(x)`
  (truncation toward zero) is modelled by `pyInt` via `Int.tdiv`.
* Image/sound sizes come from downloaded assets; they are opaque runtime
  constants collected in `Cfg` (bird and pipe dimensions, base height).
* Randomness (`random.randint(150, 300)`) and the spawn timer are inputs: the
  spawn event carries the sampled `height`.
-/

attribute [local semireducible] Rat.add Rat.ofScientific

/-- Integer rectangle mirroring `pygame.Rect` (stored as x, y, w, h). -/
structure Rect where
  left : ℤ
  top : ℤ
  w : ℤ
  h : ℤ
deriving DecidableEq, Repr

/-- pygame `Rect.right` = x + w. -/
def Rect.right (r : Rect) : ℤ := r.left + r.w

/-- pygame `Rect.bottom` = y + h. -/
def Rect.bottom (r : Rect) : ℤ := r.top + r.h

/-- pygame `Rect.centerx` = x + (w >> 1). -/
def Rect.centerx (r : Rect) : ℤ := r.left + r.w / 2

/-- pygame `Rect.centery` = y + (h >> 1). -/
def Rect.centery (r : Rect) : ℤ := r.top + r.h / 2

/-- pygame `Rect.move(dx, dy)`: a shifted copy. -/
def Rect.move (r : Rect) (dx dy : ℤ) : Rect :=
  { r with left := r.left + dx, top := r.top + dy }

/-- Rect built by `img.get_rect(midtop=(cx, ty))`: centerx = cx, top = ty. -/
def rectMidtop (w h cx ty : ℤ) : Rect :=
  { left := cx - w / 2, top := ty, w := w, h := h }

/-- Rect built by `img.get_rect(midbottom=(cx, bo))`: centerx = cx, bottom = bo. -/
def rectMidbottom (w h cx bo : ℤ) : Rect :=
  { left := cx - w / 2, top := bo - h, w := w, h := h }

/-- Rect built by `img.get_rect(center=(cx, cy))`. -/
def rectCenter (w h cx cy : ℤ) : Rect :=
  { left := cx - w / 2, top := cy - h / 2, w := w, h := h }

/-- pygame `Rect.colliderect`: strict overlap on both axes; rectangles that
merely share an edge do NOT collide (pygame documents: any portion overlaps
"except the top+bottom or left+right edges"). Stated for the normalized,
positively-sized rects this program works with. -/
def Rect.colliderect (a b : Rect) : Bool :=
  decide (a.left < b.right) && decide (a.right > b.left) &&
    decide (a.top < b.bottom) && decide (a.bottom > b.top)

/-- Python `int(x)` on a float: truncation toward zero, on our `ℚ` model. -/
def pyInt (q : ℚ) : ℤ := Int.tdiv q.num (q.den : ℤ)

/-- SCREEN_WIDTH constant of `main.py`. -/
def SCREEN_WIDTH : ℤ := 288

/-- SCREEN_HEIGHT constant of `main.py`. -/
def SCREEN_HEIGHT : ℤ := 512

/-- GRAVITY constant of `main.py` (a float, modelled exactly). -/
def GRAVITY : ℚ := 0.2425

/-- FLAP_STRENGTH constant of `main.py`. -/
def FLAP_STRENGTH : ℤ := -6

/-- PIPE_GAP constant of `main.py`. -/
def PIPE_GAP : ℤ := 100

/-- Asset-derived runtime constants (image sizes are downloaded at startup
and only known at run time; the model is parametric in them). -/
structure Cfg where
  birdW : ℤ
  birdH : ℤ
  pipeW : ℤ
  pipeH : ℤ
  baseH : ℤ
deriving DecidableEq, Repr

/-- `create_pipe` (main.py:123-128), parametrized by the value `height`
returned by `random.randint(150, 300)`:
`bottom = pipe_img.get_rect(midtop=(SCREEN_WIDTH + 50, height))`,
`top = pipe_flipped.get_rect(midbottom=(SCREEN_WIDTH + 50, height - PIPE_GAP))`,
returned as `(top, bottom)`. -/
def create_pipe (cfg : Cfg) (height : ℤ) : Rect × Rect :=
  let bottom := rectMidtop cfg.pipeW cfg.pipeH (SCREEN_WIDTH + 50) height
  let top := rectMidbottom cfg.pipeW cfg.pipeH (SCREEN_WIDTH + 50) (height - PIPE_GAP)
  (top, bottom)

/-- `move_pipes` (main.py:131-139): the list comprehension keeps a pair iff the
(pre-move) `top.right > -50` and yields both rects moved by (-3, 0). -/
def move_pipes (l : List (Rect × Rect)) : List (Rect × Rect) :=
  (l.filter (fun pr => decide (pr.1.right > -50))).map
    (fun pr => (pr.1.move (-3) 0, pr.2.move (-3) 0))

/-- `check_collision` (main.py:149-158) with the globals it reads made
explicit: the loop over pipe pairs returns True on the first rect overlap,
then the bounds test `bird.top <= -50 or bird.bottom >= SCREEN_HEIGHT -
base_img.get_height()`. Sound playback carries no game state. -/
def check_collision (bird : Rect) (l : List (Rect × Rect)) (screenH baseH : ℤ) : Bool :=
  l.any (fun pr => bird.colliderect pr.1 || bird.colliderect pr.2) ||
    decide (bird.top ≤ -50) || decide (bird.bottom ≥ screenH - baseH)

/-- Gap center of a spawned pair: midpoint between the top box's bottom edge
and the bottom box's top edge. -/
def gapCenter (pr : Rect × Rect) : ℤ := (pr.1.bottom + pr.2.top) / 2

/-- C1: for every spawned pair, the top box's bottom edge sits at
gapCenter − PIPE_GAP/2 and the bottom box's top edge at gapCenter + PIPE_GAP/2,
both boxes at horizontal position SCREEN_WIDTH + 50; in particular the pair
whose gap center is 200 (sample height = 250) has top box bottom 150 and
bottom box top 250. -/
theorem c1_spawn_gap_geometry (cfg : Cfg) (height : ℤ) :
    (create_pipe cfg height).1.bottom
        = gapCenter (create_pipe cfg height) - PIPE_GAP / 2 ∧
      (create_pipe cfg height).2.top
        = gapCenter (create_pipe cfg height) + PIPE_GAP / 2 ∧
      (create_pipe cfg height).1.centerx = SCREEN_WIDTH + 50 ∧
      (create_pipe cfg height).2.centerx = SCREEN_WIDTH + 50 ∧
      (gapCenter (create_pipe cfg 250) = 200 ∧
        (create_pipe cfg 250).1.bottom = 150 ∧ (create_pipe cfg 250).2.top = 250) := by
  unfold create_pipe gapCenter rectMidtop rectMidbottom Rect.bottom Rect.centerx
  unfold SCREEN_WIDTH PIPE_GAP
  refine ⟨?_, ?_, ?_, ?_, ?_, ?_, ?_⟩ <;> simp only [] <;> omega

/-- C3 counterexample input: a pair whose top rect has right edge -48 before
the move (kept by the filter) and -51 after the move, i.e. `move_pipes`
retains a pair whose right edge is left of -50 after the move. -/
theorem c3_counterexample :
    move_pipes [({ left := -58, top := 0, w := 10, h := 300 },
                 { left := -58, top := 400, w := 10, h := 300 })]
        = [({ left := -61, top := 0, w := 10, h := 300 },
            { left := -61, top := 400, w := 10, h := 300 })] ∧
      ({ left := -61, top := 0, w := 10, h := 300 } : Rect).right < -50 := by
  decide

/-- C3 amended: `move_pipes` prunes on the PRE-move position (`top.right >
-50` before the shift), so after the move every retained pair's leading box
has right edge > -53 (not > -50); relative order is preserved: the result is
a subsequence of the moved originals. -/
theorem c3_amended_prune_and_order (l : List (Rect × Rect)) :
    (∀ p ∈ move_pipes l, -53 < p.1.right) ∧
      (move_pipes l).Sublist
        (l.map (fun pr => (pr.1.move (-3) 0, pr.2.move (-3) 0))) := by
  constructor
  · intro p hp
    unfold move_pipes at hp
    rcases List.mem_map.mp hp with ⟨pr, hpr, rfl⟩
    rcases List.mem_filter.mp hpr with ⟨-, hkeep⟩
    have h50 : (-50 : ℤ) < pr.1.right := by
      simpa using of_decide_eq_true hkeep
    simp only [Rect.move, Rect.right] at *
    omega
  · exact List.Sublist.map _ (List.filter_sublist l)

/-- Closed-interval rectangle overlap, following the spec's words for C5
("boundary-touching counts as collision, closed-interval overlap"). -/
def closedOverlap (a b : Rect) : Bool :=
  decide (a.left ≤ b.right) && decide (b.left ≤ a.right) &&
    decide (a.top ≤ b.bottom) && decide (b.top ≤ a.bottom)

/-- Collision predicate as the spec literally describes it for C5:
closed-interval box overlap, or top ≤ -50, or bottom ≥ screenH - baseH. -/
def collisionSpecClosed (bird : Rect) (l : List (Rect × Rect)) (screenH baseH : ℤ) : Bool :=
  l.any (fun pr => closedOverlap bird pr.1 || closedOverlap bird pr.2) ||
    decide (bird.top ≤ -50) || decide (bird.bottom ≥ screenH - baseH)

/-- C5 counterexample input: the bird exactly touches a pipe's left edge
(bird.right = pipe.left = 10) away from the screen bounds; the spec's
closed-interval predicate says collision, the code's `colliderect`-based
check says no collision. -/
theorem c5_counterexample :
    check_collision { left := 0, top := 100, w := 10, h := 10 }
        [({ left := 10, top := 100, w := 10, h := 10 },
          { left := 10, top := 400, w := 10, h := 10 })] 512 112 = false ∧
      collisionSpecClosed { left := 0, top := 100, w := 10, h := 10 }
        [({ left := 10, top := 100, w := 10, h := 10 },
          { left := 10, top := 400, w := 10, h := 10 })] 512 112 = true := by
  decide

/-- C5 amended: the collision check returns true iff the avatar box STRICTLY
overlaps some pair's top or bottom box (a merely shared edge does not count,
per pygame's `colliderect`), or the avatar's top edge is ≤ -50, or its bottom
edge is ≥ screenH - baseH. -/
theorem c5_amended_collision_iff (bird : Rect) (l : List (Rect × Rect))
    (screenH baseH : ℤ) :
    check_collision bird l screenH baseH = true ↔
      ((∃ pr ∈ l,
          (bird.left < pr.1.right ∧ pr.1.left < bird.right ∧
            bird.top < pr.1.bottom ∧ pr.1.top < bird.bottom) ∨
          (bird.left < pr.2.right ∧ pr.2.left < bird.right ∧
            bird.top < pr.2.bottom ∧ pr.2.top < bird.bottom)) ∨
        bird.top ≤ -50 ∨ screenH - baseH ≤ bird.bottom) := by
  simp only [check_collision, Rect.colliderect, Bool.or_eq_true, List.any_eq_true,
    Bool.and_eq_true, decide_eq_true_eq, gt_iff_lt, ge_iff_le]
  constructor
  · rintro ((⟨pr, hpr, hc⟩ | h) | h)
    · exact Or.inl ⟨pr, hpr, by tauto⟩
    · exact Or.inr (Or.inl h)
    · exact Or.inr (Or.inr h)
  · rintro (⟨pr, hpr, hc⟩ | h | h)
    · exact Or.inl (Or.inl ⟨pr, hpr, by tauto⟩)
    · exact Or.inl (Or.inr h)
    · exact Or.inr h

/-- One gravity-integration step of the main loop (main.py:270-271):
`bird_movement += GRAVITY; bird.centery += int(bird_movement)`, projected to
the pair (velocity, centery). -/
def integrate (s : ℚ × ℤ) : ℚ × ℤ :=
  (s.1 + GRAVITY, s.2 + pyInt (s.1 + GRAVITY))

/-- `n` consecutive gravity-integration steps with no flap. -/
def integrateN : ℕ → ℚ × ℤ → ℚ × ℤ
  | 0, s => s
  | n + 1, s => integrateN n (integrate s)

/-- C7: starting from velocity 0 and centery 256, one integration step yields
velocity 0.2425 and an unchanged centery (int truncation of 0.2425 is 0), and
after 25 steps without flapping the centery has strictly increased (net
downward drift: larger y is lower on screen). -/
theorem c7_gravity_integration :
    (integrate (0, 256)).1 = 0.2425 ∧ (integrate (0, 256)).2 = 256 ∧
      256 < (integrateN 25 (0, 256)).2 := by
  decide

/-- Python whitespace strip (`str.strip()` as performed by `int(...)` on its
string argument before parsing). -/
def pyStripChars (cs : List Char) : List Char :=
  ((cs.dropWhile Char.isWhitespace).reverse.dropWhile Char.isWhitespace).reverse

/-- Decimal digits to integer value. -/
def digitsToInt (cs : List Char) : ℤ :=
  cs.foldl (fun a c => a * 10 + ((c.toNat : ℤ) - 48)) 0

/-- Model of Python `int(s)` applied to a file's text: optional surrounding
whitespace, optional sign, then a nonempty run of decimal digits; anything
else raises ValueError (modelled as `none`). -/
def pyParseInt (s : String) : Option ℤ :=
  let t := pyStripChars s.data
  let sd : ℤ × List Char :=
    match t with
    | c :: rest =>
        if c = '-' then (-1, rest) else if c = '+' then (1, rest) else (1, t)
    | [] => (1, [])
  if sd.2 ≠ [] ∧ sd.2.all Char.isDigit then some (sd.1 * digitsToInt sd.2)
  else none

/-- `load_highscore` (main.py:94-103): returns 0 when the file is missing
(`os.path.exists` false, modelled as `none`), the parsed integer when
`int(f.read())` succeeds, and 0 when it raises ValueError. -/
def load_highscore (file : Option String) : ℤ :=
  match file with
  | none => 0
  | some s =>
      match pyParseInt s with
      | some n => n
      | none => 0

/-- C8: the high-score read yields 0 for a missing file and for non-numeric
content (e.g. a file containing "abc"), surfacing no exception, and yields the
stored integer for a file whose content parses as an integer. -/
theorem c8_highscore_read :
    load_highscore none = 0 ∧ load_highscore (some ("abc")) = 0 ∧
      load_highscore (some ("57")) = 57 ∧
      ∀ (s : String) (n : ℤ), pyParseInt s = some n → load_highscore (some s) = n := by
  refine ⟨rfl, by decide, by decide, ?_⟩
  intro s n h
  simp [load_highscore, h]

/-- C8 witness: the general clause of `c8_highscore_read` applied to a
concrete valid-integer file. -/
theorem c8_highscore_read_witness : load_highscore (some ("123")) = 123 :=
  c8_highscore_read.2.2.2 ("123") 123 (by decide)

/-- Decoded key identities the program reacts to (K_SPACE, K_r, K_v, K_m,
K_n, K_k, K_l; `other` stands for any further key). -/
inductive Key where
  | space
  | r
  | v
  | m
  | n
  | k
  | l
  | other
deriving DecidableEq, Repr

/-- Events drained from the pygame queue each frame: KEYDOWN events and the
SPAWNPIPE timer event. The spawn event carries the height sampled by
`random.randint(150, 300)` inside `create_pipe`. `pygame.QUIT` only clears
the `running` flag, terminating the loop without mutating game state, so it
is modelled by ending the run. -/
inductive Event where
  | keyDown (key : Key)
  | spawnPipe (height : ℤ)
deriving DecidableEq, Repr

/-- The module-level game state of `main.py` (lines 200-223), together with
`hs_file`: the last value written to `highscore.txt` by `save_highscore`
(`none` if never written during the modelled run). -/
structure GameState where
  bird : Rect
  bird_movement : ℚ
  pipes : List (Rect × Rect)
  base_x : ℤ
  score : ℤ
  game_active : Bool
  high_score : ℤ
  music_volume : ℚ
  sfx_volume : ℚ
  show_volume_ui : Bool
  hs_file : Option ℤ
deriving DecidableEq, Repr

/-- `reset_game` (main.py:112-120): recenter the bird at (50, SCREEN_HEIGHT
// 2), zero the velocity, clear pipes, reset base scroll and score, back to
Playing. `high_score`, volumes and the overlay flag are untouched. -/
def reset_game (cfg : Cfg) (s : GameState) : GameState :=
  { s with
    bird := rectCenter cfg.birdW cfg.birdH 50 (SCREEN_HEIGHT / 2)
    bird_movement := 0
    pipes := []
    base_x := 0
    score := 0
    game_active := true }

/-- First event-handling block (main.py:234-242): flap / pipe spawn while
Playing with the overlay closed, restart while GameOver with the overlay
closed. Sound playback carries no game state. -/
def routeGated (cfg : Cfg) (s : GameState) (e : Event) : GameState :=
  if s.game_active && !s.show_volume_ui then
    match e with
    | .keyDown .space => { s with bird_movement := (FLAP_STRENGTH : ℚ) }
    | .spawnPipe height => { s with pipes := s.pipes ++ [create_pipe cfg height] }
    | _ => s
  else if !s.game_active && !s.show_volume_ui then
    match e with
    | .keyDown .r => reset_game cfg s
    | _ => s
  else s

/-- Second event-handling block (main.py:245-267), reached for KEYDOWN
events: toggle the overlay on V, then — against the just-updated flag —
adjust volumes on M/N/K/L by ±0.05, clamped into [0, 1] by min/max. The
set_volume calls on the mixer are external effects with no game state. -/
def settingsKeys (s1 : GameState) (key : Key) : GameState :=
  let s2 :=
    if key = Key.v then { s1 with show_volume_ui := !s1.show_volume_ui } else s1
  if s2.show_volume_ui then
    match key with
    | Key.m => { s2 with music_volume := min 1 (s2.music_volume + 0.05) }
    | Key.n => { s2 with music_volume := max 0 (s2.music_volume - 0.05) }
    | Key.k => { s2 with sfx_volume := min 1 (s2.sfx_volume + 0.05) }
    | Key.l => { s2 with sfx_volume := max 0 (s2.sfx_volume - 0.05) }
    | _ => s2
  else s2

/-- Handling of one drained event (the body of the `for event in
pygame.event.get()` loop, main.py:230-267): the gated routing block runs
first, then the KEYDOWN overlay/volume block. -/
def handleEvent (cfg : Cfg) (s : GameState) (e : Event) : GameState :=
  match e with
  | .keyDown key => settingsKeys (routeGated cfg s e) key
  | .spawnPipe _ => routeGated cfg s e

/-- Bird rect after the per-tick gravity update (main.py:270-271):
`bird.centery += int(bird_movement)` shifts `top` by exactly the truncated
velocity (pygame's centery setter subtracts the same `h >> 1` the getter
added). -/
def tickBird (s : GameState) : Rect :=
  { s.bird with top := s.bird.top + pyInt (s.bird_movement + GRAVITY) }

/-- Number of score increments of one scoring pass (main.py:289-293): one per
pipe pair whose top rect's centerx equals the bird's centerx. -/
def scoreMatches (bird : Rect) (l : List (Rect × Rect)) : ℕ :=
  (l.filter (fun pr => decide (pr.1.centerx = bird.centerx))).length

/-- One simulation tick (main.py:269-293): when Playing with the overlay
closed — integrate gravity, move/prune pipes, scroll the base with wraparound,
check collision (on hit: leave Playing and, if the current score beats the
high score, update and persist it), then run the scoring pass. Otherwise
(GameOver or overlay open) the tick mutates nothing. -/
def tick (cfg : Cfg) (s : GameState) : GameState :=
  if s.game_active && !s.show_volume_ui then
    let m := s.bird_movement + GRAVITY
    let bird := tickBird s
    let pipes := move_pipes s.pipes
    let bx0 := s.base_x - 1
    let bx := if bx0 ≤ -SCREEN_WIDTH then 0 else bx0
    let collided := check_collision bird pipes SCREEN_HEIGHT cfg.baseH
    let newHigh := collided && decide (s.high_score < s.score)
    { s with
      bird_movement := m
      bird := bird
      pipes := pipes
      base_x := bx
      game_active := !collided
      high_score := if newHigh then s.score else s.high_score
      hs_file := if newHigh then some s.score else s.hs_file
      score := s.score + (scoreMatches bird pipes : ℤ) }
  else s

/-- One whole main-loop iteration: drain the event queue in arrival order,
then run the tick. -/
def frame (cfg : Cfg) (s : GameState) (events : List Event) : GameState :=
  tick cfg (events.foldl (handleEvent cfg) s)

/-- A run: a sequence of frames, each with its drained events. -/
def run (cfg : Cfg) (s : GameState) (frames : List (List Event)) : GameState :=
  frames.foldl (frame cfg) s

/-- Sample asset dimensions (the FlapPyBird sprites: bird 34x24, pipe 52x320,
base 336x112) used for concrete evaluations. -/
def cfg0 : Cfg :=
  { birdW := 34, birdH := 24, pipeW := 52, pipeH := 320, baseH := 112 }

/-- The module-level initial state (main.py:200-223) given the loaded high
score: bird centered at (50, 256), empty field, Playing, overlay closed,
volumes 0.4 / 0.5. -/
def initState (cfg : Cfg) (hs : ℤ) : GameState :=
  { bird := rectCenter cfg.birdW cfg.birdH 50 (SCREEN_HEIGHT / 2)
    bird_movement := 0
    pipes := []
    base_x := 0
    score := 0
    game_active := true
    high_score := hs
    music_volume := 0.4
    sfx_volume := 0.5
    show_volume_ui := false
    hs_file := none }

/-- A Playing state with the settings overlay open. -/
def uiOpenState : GameState :=
  { initState cfg0 0 with show_volume_ui := true }

/-- C4 counterexample input: with the overlay open during Playing, a
SPAWNPIPE event delivered by the timer is discarded wholesale — the state is
unchanged and in particular no pair is appended to the field. -/
theorem c4_counterexample :
    uiOpenState.game_active = true ∧ uiOpenState.show_volume_ui = true ∧
      handleEvent cfg0 uiOpenState (.spawnPipe 200) = uiOpenState ∧
      (handleEvent cfg0 uiOpenState (.spawnPipe 200)).pipes = [] := by
  decide

/-- C4 amended: while the settings overlay is open, ALL Playing/GameOver
routing and tick mutation are suspended — flap, restart AND timer-delivered
spawn events are discarded (the SPAWNPIPE handler sits inside the same
`game_active and not show_volume_ui` gate), and the tick mutates nothing. -/
theorem c4_amended_overlay_suspends_spawns (cfg : Cfg) (s : GameState)
    (h : s.show_volume_ui = true) (height : ℤ) :
    handleEvent cfg s (.spawnPipe height) = s ∧
      handleEvent cfg s (.keyDown .space) = s ∧
      handleEvent cfg s (.keyDown .r) = s ∧
      tick cfg s = s := by
  refine ⟨?_, ?_, ?_, ?_⟩ <;>
    simp [handleEvent, routeGated, settingsKeys, tick, h]

/-- C4 amended witness: the suspension facts at a concrete overlay-open
Playing state. -/
theorem c4_amended_overlay_suspends_spawns_witness :
    handleEvent cfg0 uiOpenState (.spawnPipe 250) = uiOpenState ∧
      handleEvent cfg0 uiOpenState (.keyDown .space) = uiOpenState ∧
      handleEvent cfg0 uiOpenState (.keyDown .r) = uiOpenState ∧
      tick cfg0 uiOpenState = uiOpenState :=
  c4_amended_overlay_suspends_spawns cfg0 uiOpenState rfl 250

/-- The gated routing block never touches the volume fields or the overlay
flag. -/
theorem routeGated_volumes (cfg : Cfg) (s : GameState) (e : Event) :
    (routeGated cfg s e).music_volume = s.music_volume ∧
      (routeGated cfg s e).sfx_volume = s.sfx_volume ∧
      (routeGated cfg s e).show_volume_ui = s.show_volume_ui := by
  unfold routeGated reset_game
  rcases e with key | height
  · cases key <;> (split <;> (try split) <;> simp_all)
  · split <;> (try split) <;> simp_all

/-- Lower and upper bound of the upward volume step `min(1.0, v + 0.05)`. -/
theorem volume_step_up_bounds (v : ℚ) (h0 : 0 ≤ v) :
    0 ≤ min 1 (v + 0.05) ∧ min 1 (v + 0.05) ≤ 1 :=
  ⟨le_min (by norm_num) (by linarith), min_le_left _ _⟩

/-- Lower and upper bound of the downward volume step `max(0.0, v - 0.05)`. -/
theorem volume_step_down_bounds (v : ℚ) (h1 : v ≤ 1) :
    0 ≤ max 0 (v - 0.05) ∧ max 0 (v - 0.05) ≤ 1 :=
  ⟨le_max_left _ _, max_le (by norm_num) (by linarith)⟩

/-- The overlay/volume key block keeps both volumes inside [0, 1]. -/
theorem settingsKeys_volume_bounds (s : GameState) (key : Key)
    (hm0 : 0 ≤ s.music_volume) (hm1 : s.music_volume ≤ 1)
    (hs0 : 0 ≤ s.sfx_volume) (hs1 : s.sfx_volume ≤ 1) :
    0 ≤ (settingsKeys s key).music_volume ∧ (settingsKeys s key).music_volume ≤ 1 ∧
      0 ≤ (settingsKeys s key).sfx_volume ∧ (settingsKeys s key).sfx_volume ≤ 1 := by
  unfold settingsKeys
  cases hu : s.show_volume_ui <;> cases key <;> simp [hu] <;>
    (repeat' constructor) <;> linarith

/-- One handled event keeps both volumes inside [0, 1]. -/
theorem handleEvent_volume_bounds (cfg : Cfg) (s : GameState) (e : Event)
    (hm0 : 0 ≤ s.music_volume) (hm1 : s.music_volume ≤ 1)
    (hs0 : 0 ≤ s.sfx_volume) (hs1 : s.sfx_volume ≤ 1) :
    0 ≤ (handleEvent cfg s e).music_volume ∧ (handleEvent cfg s e).music_volume ≤ 1 ∧
      0 ≤ (handleEvent cfg s e).sfx_volume ∧ (handleEvent cfg s e).sfx_volume ≤ 1 := by
  obtain ⟨hv1, hv2, -⟩ := routeGated_volumes cfg s e
  rcases e with key | height
  · exact settingsKeys_volume_bounds _ key (hv1 ▸ hm0) (hv1 ▸ hm1) (hv2 ▸ hs0) (hv2 ▸ hs1)
  · simp only [handleEvent, hv1, hv2]
    exact ⟨hm0, hm1, hs0, hs1⟩

/-- C9: over any sequence of handled events, both the music volume and the
effects volume stay within [0, 1]; and with the overlay open each single
adjustment key computes new = clamp(old ± 0.05, 0, 1). -/
theorem c9_volume_adjustments_clamped (cfg : Cfg) (es : List Event) (s : GameState)
    (hm0 : 0 ≤ s.music_volume) (hm1 : s.music_volume ≤ 1)
    (hs0 : 0 ≤ s.sfx_volume) (hs1 : s.sfx_volume ≤ 1) :
    (0 ≤ (es.foldl (handleEvent cfg) s).music_volume ∧
        (es.foldl (handleEvent cfg) s).music_volume ≤ 1 ∧
        0 ≤ (es.foldl (handleEvent cfg) s).sfx_volume ∧
        (es.foldl (handleEvent cfg) s).sfx_volume ≤ 1) ∧
      (s.show_volume_ui = true →
        (handleEvent cfg s (.keyDown .m)).music_volume
            = max 0 (min 1 (s.music_volume + 0.05)) ∧
          (handleEvent cfg s (.keyDown .n)).music_volume
            = max 0 (min 1 (s.music_volume - 0.05)) ∧
          (handleEvent cfg s (.keyDown .k)).sfx_volume
            = max 0 (min 1 (s.sfx_volume + 0.05)) ∧
          (handleEvent cfg s (.keyDown .l)).sfx_volume
            = max 0 (min 1 (s.sfx_volume - 0.05))) := by
  constructor
  · induction es generalizing s with
    | nil => exact ⟨hm0, hm1, hs0, hs1⟩
    | cons e rest ih =>
        obtain ⟨h1, h2, h3, h4⟩ := handleEvent_volume_bounds cfg s e hm0 hm1 hs0 hs1
        simpa using ih (handleEvent cfg s e) h1 h2 h3 h4
  · intro hui
    obtain ⟨am, bm, cm⟩ := routeGated_volumes cfg s (.keyDown Key.m)
    obtain ⟨an, bn, cn⟩ := routeGated_volumes cfg s (.keyDown Key.n)
    obtain ⟨ak, bk, ck⟩ := routeGated_volumes cfg s (.keyDown Key.k)
    obtain ⟨al, bl, cl⟩ := routeGated_volumes cfg s (.keyDown Key.l)
    refine ⟨?_, ?_, ?_, ?_⟩ <;>
      simp [handleEvent, settingsKeys, am, bm, cm, an, bn, cn, ak, bk, ck,
        al, bl, cl, hui] <;>
      first
        | linarith
        | rw [min_eq_right (by linarith : s.music_volume - 0.05 ≤ 1)]
        | rw [min_eq_right (by linarith : s.sfx_volume - 0.05 ≤ 1)]

/-- C9 witness: the invariant and the clamp shapes at the initial volumes
(0.4 and 0.5) with the overlay open, over a concrete event sequence. -/
theorem c9_volume_adjustments_clamped_witness :
    (0 ≤ (([Event.keyDown Key.m, Event.keyDown Key.n]).foldl (handleEvent cfg0)
          uiOpenState).music_volume ∧
        (([Event.keyDown Key.m, Event.keyDown Key.n]).foldl (handleEvent cfg0)
          uiOpenState).music_volume ≤ 1 ∧
        0 ≤ (([Event.keyDown Key.m, Event.keyDown Key.n]).foldl (handleEvent cfg0)
          uiOpenState).sfx_volume ∧
        (([Event.keyDown Key.m, Event.keyDown Key.n]).foldl (handleEvent cfg0)
          uiOpenState).sfx_volume ≤ 1) ∧
      (uiOpenState.show_volume_ui = true →
        (handleEvent cfg0 uiOpenState (.keyDown .m)).music_volume
            = max 0 (min 1 (uiOpenState.music_volume + 0.05)) ∧
          (handleEvent cfg0 uiOpenState (.keyDown .n)).music_volume
            = max 0 (min 1 (uiOpenState.music_volume - 0.05)) ∧
          (handleEvent cfg0 uiOpenState (.keyDown .k)).sfx_volume
            = max 0 (min 1 (uiOpenState.sfx_volume + 0.05)) ∧
          (handleEvent cfg0 uiOpenState (.keyDown .l)).sfx_volume
            = max 0 (min 1 (uiOpenState.sfx_volume - 0.05))) :=
  c9_volume_adjustments_clamped cfg0 [Event.keyDown Key.m, Event.keyDown Key.n]
    uiOpenState (by decide) (by decide) (by decide) (by decide)

/-- Music-related startup state: the module-level `music_volume` binding
(`none` models "annotated at line 67 but not yet assigned"; reading it raises
NameError) and whether `pygame.mixer.music.play` was reached. -/
structure MusicInit where
  music_volume : Option ℚ
  music_playing : Bool
deriving DecidableEq, Repr

/-- Startup music initialization (main.py:187-195 followed by line 207).
The try block loads `bg.ogg` (`loadOk = false` models a missing/broken
file), then evaluates `pygame.mixer.music.set_volume(music_volume)` — at
that point `music_volume` is an annotated-but-unassigned global, so the read
raises NameError even when loading succeeded, and `play(-1)` is never
reached; the except handler logs and sets `music_volume = 0.0`. After the
try/except, line 207 unconditionally runs `music_volume: float = 0.4`. -/
def musicStartup (loadOk : Bool) : MusicInit :=
  let s0 : MusicInit := { music_volume := none, music_playing := false }
  let tryRes : Except Unit MusicInit :=
    if loadOk then
      match s0.music_volume with
      | some _ => Except.ok { s0 with music_playing := true }
      | none => Except.error ()
    else Except.error ()
  let s1 : MusicInit :=
    match tryRes with
    | Except.ok st => st
    | Except.error _ => { s0 with music_volume := some 0 }
  { s1 with music_volume := some 0.4 }

/-- C2 (code bug): whether or not loading the background music fails, the
startup sequence ends with `music_volume = 0.4`, not 0.0 — the line-207
initializer `music_volume: float = 0.4` runs after the except handler and
overwrites the 0.0 that was meant to disable music volume control (the
handler's own comment says "Disable music volume control"), so the control
is NOT disabled; and no music is ever playing. -/
theorem c2_music_volume_not_disabled :
    (musicStartup false).music_volume = some 0.4 ∧
      (musicStartup false).music_playing = false ∧
      (musicStartup true).music_volume = some 0.4 ∧
      (musicStartup true).music_playing = false ∧
      (0.4 : ℚ) ≠ 0 := by
  decide

/-- A Playing state one tick away from a simultaneous collision and scoring
pass: the bird (centerx 50) sits inside the horizontal span of a pair whose
top rect's centerx will be exactly 50 after the move, and overlaps the
bottom pipe; the current score 5 beats the stored high score 0. -/
def c10State : GameState :=
  { bird := { left := 38, top := 250, w := 24, h := 24 }
    bird_movement := 0
    pipes := [({ left := 27, top := -100, w := 52, h := 200 },
               { left := 27, top := 200, w := 52, h := 320 })]
    base_x := 0
    score := 5
    game_active := true
    high_score := 0
    music_volume := 0.4
    sfx_volume := 0.5
    show_volume_ui := false
    hs_file := none }

/-- C10: in a tick that detects a collision, the scoring pass still runs
after the Playing→GameOver transition and after the high score has been
finalized and persisted: for every such state the new high score and the
persisted value are computed from the PRE-scoring score while the final
score still receives the scoring increments. In particular, at `c10State`
the tick leaves GameOver with displayed score 6 while the persisted best is
5: the persisted best is strictly less than the run's final displayed
score. -/
theorem c10_scoring_after_finalize (cfg : Cfg) (s : GameState)
    (h1 : s.game_active = true) (h2 : s.show_volume_ui = false)
    (hcol : check_collision (tickBird s) (move_pipes s.pipes) SCREEN_HEIGHT cfg.baseH
      = true) :
    ((tick cfg s).game_active = false ∧
        (tick cfg s).high_score
          = (if s.high_score < s.score then s.score else s.high_score) ∧
        (tick cfg s).hs_file
          = (if s.high_score < s.score then some s.score else s.hs_file) ∧
        (tick cfg s).score
          = s.score + (scoreMatches (tickBird s) (move_pipes s.pipes) : ℤ)) ∧
      ((tick cfg0 c10State).game_active = false ∧
        (tick cfg0 c10State).hs_file = some 5 ∧
        (tick cfg0 c10State).score = 6 ∧
        (tick cfg0 c10State).high_score < (tick cfg0 c10State).score) := by
  constructor
  · rw [tick]
    simp only [h1, h2, hcol]
    simp [decide_eq_true_eq]
  · decide

/-- C10 witness: the general clauses of `c10_scoring_after_finalize`
evaluated at the concrete collision state. -/
theorem c10_scoring_after_finalize_witness :
    ((tick cfg0 c10State).game_active = false ∧
        (tick cfg0 c10State).high_score
          = (if c10State.high_score < c10State.score then c10State.score
             else c10State.high_score) ∧
        (tick cfg0 c10State).hs_file
          = (if c10State.high_score < c10State.score then some c10State.score
             else c10State.hs_file) ∧
        (tick cfg0 c10State).score
          = c10State.score
              + (scoreMatches (tickBird c10State) (move_pipes c10State.pipes) : ℤ)) ∧
      ((tick cfg0 c10State).game_active = false ∧
        (tick cfg0 c10State).hs_file = some 5 ∧
        (tick cfg0 c10State).score = 6 ∧
        (tick cfg0 c10State).high_score < (tick cfg0 c10State).score) :=
  c10_scoring_after_finalize cfg0 c10State rfl rfl (by decide)

/-- Pipe pair carrying a ghost spawn identifier, used to speak about "the
same pair" across frames. The identifier is erased by `eraseP`; the erasure
theorems below show the instrumented semantics is the source semantics. -/
abbrev TPipe := ℕ × Rect × Rect

/-- Instrumented game state: identical to `GameState` except pipes carry
ghost identifiers and `next_id` is the next fresh one. -/
structure TGameState where
  bird : Rect
  bird_movement : ℚ
  pipes : List TPipe
  next_id : ℕ
  base_x : ℤ
  score : ℤ
  game_active : Bool
  high_score : ℤ
  music_volume : ℚ
  sfx_volume : ℚ
  show_volume_ui : Bool
  hs_file : Option ℤ
deriving DecidableEq, Repr

/-- Drop a pipe pair's ghost identifier. -/
def eraseP (p : TPipe) : Rect × Rect := (p.2.1, p.2.2)

/-- Erase all ghost identifiers of the instrumented state. -/
def eraseS (s : TGameState) : GameState :=
  { bird := s.bird
    bird_movement := s.bird_movement
    pipes := s.pipes.map eraseP
    base_x := s.base_x
    score := s.score
    game_active := s.game_active
    high_score := s.high_score
    music_volume := s.music_volume
    sfx_volume := s.sfx_volume
    show_volume_ui := s.show_volume_ui
    hs_file := s.hs_file }

/-- `move_pipes` on identifier-carrying pipes (ids ride along unchanged). -/
def move_pipesT (l : List TPipe) : List TPipe :=
  (l.filter (fun p => decide (p.2.1.right > -50))).map
    (fun p => (p.1, p.2.1.move (-3) 0, p.2.2.move (-3) 0))

/-- `reset_game` on the instrumented state (`next_id` keeps counting so
identifiers stay fresh across restarts). -/
def reset_gameT (cfg : Cfg) (s : TGameState) : TGameState :=
  { s with
    bird := rectCenter cfg.birdW cfg.birdH 50 (SCREEN_HEIGHT / 2)
    bird_movement := 0
    pipes := []
    base_x := 0
    score := 0
    game_active := true }

/-- `routeGated` on the instrumented state: a spawned pair receives the
fresh identifier `next_id`. -/
def routeGatedT (cfg : Cfg) (s : TGameState) (e : Event) : TGameState :=
  if s.game_active && !s.show_volume_ui then
    match e with
    | .keyDown .space => { s with bird_movement := (FLAP_STRENGTH : ℚ) }
    | .spawnPipe height =>
        { s with
          pipes := s.pipes ++ [(s.next_id, create_pipe cfg height)]
          next_id := s.next_id + 1 }
    | _ => s
  else if !s.game_active && !s.show_volume_ui then
    match e with
    | .keyDown .r => reset_gameT cfg s
    | _ => s
  else s

/-- `settingsKeys` on the instrumented state (identical: it only touches
volumes and the overlay flag). -/
def settingsKeysT (s1 : TGameState) (key : Key) : TGameState :=
  let s2 :=
    if key = Key.v then { s1 with show_volume_ui := !s1.show_volume_ui } else s1
  if s2.show_volume_ui then
    match key with
    | Key.m => { s2 with music_volume := min 1 (s2.music_volume + 0.05) }
    | Key.n => { s2 with music_volume := max 0 (s2.music_volume - 0.05) }
    | Key.k => { s2 with sfx_volume := min 1 (s2.sfx_volume + 0.05) }
    | Key.l => { s2 with sfx_volume := max 0 (s2.sfx_volume - 0.05) }
    | _ => s2
  else s2

/-- `handleEvent` on the instrumented state. -/
def handleEventT (cfg : Cfg) (s : TGameState) (e : Event) : TGameState :=
  match e with
  | .keyDown key => settingsKeysT (routeGatedT cfg s e) key
  | .spawnPipe _ => routeGatedT cfg s e

/-- Moved bird of the instrumented tick (same as `tickBird`; note its
centerx equals `s.bird.centerx` — only `top` changes). -/
def tickBirdT (s : TGameState) : Rect :=
  { s.bird with top := s.bird.top + pyInt (s.bird_movement + GRAVITY) }

/-- Identifiers of the pairs that score in the tick applied to `s`: the
post-move pairs whose top rect's centerx equals the bird's centerx (the
bird's centerx is unchanged by the move), when the tick is active; no pair
scores in a suspended tick. -/
def scoredIds (s : TGameState) : List ℕ :=
  if s.game_active && !s.show_volume_ui then
    ((move_pipesT s.pipes).filter
        (fun p => decide (p.2.1.centerx = s.bird.centerx))).map (fun p => p.1)
  else []

/-- `tick` on the instrumented state; the scoring increment is the number of
scoring pairs, written through `scoredIds`. -/
def tickT (cfg : Cfg) (s : TGameState) : TGameState :=
  if s.game_active && !s.show_volume_ui then
    let m := s.bird_movement + GRAVITY
    let bird := tickBirdT s
    let pipes := move_pipesT s.pipes
    let bx0 := s.base_x - 1
    let bx := if bx0 ≤ -SCREEN_WIDTH then 0 else bx0
    let collided := check_collision bird (pipes.map eraseP) SCREEN_HEIGHT cfg.baseH
    let newHigh := collided && decide (s.high_score < s.score)
    { s with
      bird_movement := m
      bird := bird
      pipes := pipes
      base_x := bx
      game_active := !collided
      high_score := if newHigh then s.score else s.high_score
      hs_file := if newHigh then some s.score else s.hs_file
      score := s.score + ((scoredIds s).length : ℤ) }
  else s

/-- All events of one frame, in arrival order. -/
def applyEventsT (cfg : Cfg) (s : TGameState) (es : List Event) : TGameState :=
  es.foldl (handleEventT cfg) s

/-- One whole instrumented main-loop iteration. -/
def frameT (cfg : Cfg) (s : TGameState) (es : List Event) : TGameState :=
  tickT cfg (applyEventsT cfg s es)

/-- How many frames of the run score the pair with identifier `i`. -/
def countRun (cfg : Cfg) (i : ℕ) (s : TGameState) : List (List Event) → ℕ
  | [] => 0
  | es :: rest =>
      (scoredIds (applyEventsT cfg s es)).count i
        + countRun cfg i (frameT cfg s es) rest

/-- The ghost identifiers currently in the field. -/
def pipeIds (s : TGameState) : List ℕ := s.pipes.map (fun p => p.1)

/-- Well-formedness of the instrumented state: identifiers are distinct and
below `next_id`, and the bird's centerx is 50 (it is created and reset with
`center=(50, ...)` and never moves horizontally). -/
structure InvT (s : TGameState) : Prop where
  nodup : (pipeIds s).Nodup
  below : ∀ p ∈ s.pipes, p.1 < s.next_id
  bcx : s.bird.centerx = 50

/-- The pair with identifier `i` can no longer score: the identifier is
already used up (below `next_id`, so no future spawn reuses it) and any such
pair still in the field has top centerx < 53, hence post-move centerx < 50
forever after. -/
def spentId (i : ℕ) (s : TGameState) : Prop :=
  i < s.next_id ∧ ∀ p ∈ s.pipes, p.1 = i → p.2.1.centerx < 53

theorem rectCenter_centerx (w h cx cy : ℤ) : (rectCenter w h cx cy).centerx = cx := by
  simp [rectCenter, Rect.centerx]

theorem move_centerx (r : Rect) (dx dy : ℤ) : (r.move dx dy).centerx = r.centerx + dx := by
  simp [Rect.move, Rect.centerx]
  ring

theorem mem_move_pipesT {l : List TPipe} {p' : TPipe} :
    p' ∈ move_pipesT l ↔
      ∃ p ∈ l, -50 < p.2.1.right ∧
        p' = (p.1, p.2.1.move (-3) 0, p.2.2.move (-3) 0) := by
  unfold move_pipesT
  simp [List.mem_map, List.mem_filter, and_assoc, eq_comm]

theorem settingsKeysT_core (s : TGameState) (key : Key) :
    (settingsKeysT s key).pipes = s.pipes ∧
      (settingsKeysT s key).next_id = s.next_id ∧
      (settingsKeysT s key).bird = s.bird := by
  unfold settingsKeysT
  cases hu : s.show_volume_ui <;> cases key <;> simp [hu]

theorem routeGatedT_shape (cfg : Cfg) (s : TGameState) (e : Event) :
    ((routeGatedT cfg s e).pipes = s.pipes ∧
        (routeGatedT cfg s e).next_id = s.next_id ∧
        (routeGatedT cfg s e).bird = s.bird) ∨
      (∃ height, routeGatedT cfg s e
        = { s with
            pipes := s.pipes ++ [(s.next_id, create_pipe cfg height)]
            next_id := s.next_id + 1 }) ∨
      routeGatedT cfg s e = reset_gameT cfg s := by
  unfold routeGatedT
  rcases e with key | height
  · cases key <;> split <;> (try split) <;> simp
  · split <;> (try split) <;> simp

theorem InvT_routeGatedT (cfg : Cfg) (s : TGameState) (e : Event) (h : InvT s) :
    InvT (routeGatedT cfg s e) := by
  rcases routeGatedT_shape cfg s e with ⟨h1, h2, h3⟩ | ⟨height, heq⟩ | heq
  · refine ⟨?_, ?_, ?_⟩
    · rw [pipeIds, h1]; exact h.nodup
    · intro p hp; rw [h1] at hp; rw [h2]; exact h.below p hp
    · rw [h3]; exact h.bcx
  · rw [heq]
    refine ⟨?_, ?_, ?_⟩
    · have hnot : s.next_id ∉ s.pipes.map (fun p => p.1) := by
        intro hmem
        rcases List.mem_map.mp hmem with ⟨p, hp, hid⟩
        exact absurd hid (Nat.ne_of_lt (h.below p hp))
      simp only [pipeIds, List.map_append, List.map_cons, List.map_nil]
      exact (List.nodup_append).mpr
        ⟨h.nodup, List.nodup_singleton _, by
          intro x hx hx'
          simp only [List.mem_singleton] at hx'
          subst hx'
          exact hnot hx⟩
    · intro p hp
      simp only [List.mem_append, List.mem_singleton] at hp
      rcases hp with hp | rfl
      · exact Nat.lt_succ_of_lt (h.below p hp)
      · exact Nat.lt_succ_self _
    · exact h.bcx
  · rw [heq]
    refine ⟨?_, ?_, ?_⟩
    · simp [pipeIds, reset_gameT]
    · simp [reset_gameT]
    · simp only [reset_gameT]
      exact rectCenter_centerx _ _ _ _

theorem InvT_settingsKeysT (s : TGameState) (key : Key) (h : InvT s) :
    InvT (settingsKeysT s key) := by
  obtain ⟨h1, h2, h3⟩ := settingsKeysT_core s key
  refine ⟨?_, ?_, ?_⟩
  · rw [pipeIds, h1]; exact h.nodup
  · intro p hp; rw [h1] at hp; rw [h2]; exact h.below p hp
  · rw [h3]; exact h.bcx

theorem InvT_handleEventT (cfg : Cfg) (s : TGameState) (e : Event) (h : InvT s) :
    InvT (handleEventT cfg s e) := by
  rcases e with key | height
  · exact InvT_settingsKeysT _ key (InvT_routeGatedT cfg s _ h)
  · exact InvT_routeGatedT cfg s (.spawnPipe height) h

theorem InvT_applyEventsT (cfg : Cfg) (es : List Event) :
    ∀ s : TGameState, InvT s → InvT (applyEventsT cfg s es) := by
  induction es with
  | nil => exact fun s h => h
  | cons e rest ih =>
      intro s h
      exact ih (handleEventT cfg s e) (InvT_handleEventT cfg s e h)

theorem move_pipesT_ids_sublist (l : List TPipe) :
    ((move_pipesT l).map (fun p => p.1)).Sublist (l.map (fun p => p.1)) := by
  unfold move_pipesT
  rw [List.map_map]
  have : ((l.filter (fun p => decide (p.2.1.right > -50))).map
      ((fun p : TPipe => p.1) ∘ (fun p : TPipe => (p.1, p.2.1.move (-3) 0, p.2.2.move (-3) 0))))
      = (l.filter (fun p => decide (p.2.1.right > -50))).map (fun p => p.1) := by
    exact List.map_congr_left (fun p _ => rfl)
  rw [this]
  exact (List.filter_sublist l).map _

theorem InvT_tickT (cfg : Cfg) (s : TGameState) (h : InvT s) : InvT (tickT cfg s) := by
  unfold tickT
  split
  · refine ⟨?_, ?_, ?_⟩
    · simp only [pipeIds]
      exact ((move_pipesT_ids_sublist s.pipes).nodup h.nodup)
    · intro p hp
      simp only at hp
      rcases mem_move_pipesT.mp hp with ⟨q, hq, -, rfl⟩
      exact h.below q hq
    · exact h.bcx
  · exact h

theorem spentId_routeGatedT (cfg : Cfg) (s : TGameState) (e : Event) (i : ℕ)
    (h : spentId i s) : spentId i (routeGatedT cfg s e) := by
  rcases routeGatedT_shape cfg s e with ⟨h1, h2, h3⟩ | ⟨height, heq⟩ | heq
  · exact ⟨h2 ▸ h.1, h1 ▸ h.2⟩
  · rw [heq]
    refine ⟨Nat.lt_succ_of_lt h.1, ?_⟩
    intro p hp hpi
    simp only [List.mem_append, List.mem_singleton] at hp
    rcases hp with hp | rfl
    · exact h.2 p hp hpi
    · exact absurd (hpi ▸ h.1) (lt_irrefl _)
  · rw [heq]
    exact ⟨h.1, by simp [reset_gameT]⟩

theorem spentId_settingsKeysT (s : TGameState) (key : Key) (i : ℕ)
    (h : spentId i s) : spentId i (settingsKeysT s key) := by
  obtain ⟨h1, h2, -⟩ := settingsKeysT_core s key
  exact ⟨h2 ▸ h.1, h1 ▸ h.2⟩

theorem spentId_handleEventT (cfg : Cfg) (s : TGameState) (e : Event) (i : ℕ)
    (h : spentId i s) : spentId i (handleEventT cfg s e) := by
  rcases e with key | height
  · exact spentId_settingsKeysT _ key i (spentId_routeGatedT cfg s _ i h)
  · exact spentId_routeGatedT cfg s (.spawnPipe height) i h

theorem spentId_applyEventsT (cfg : Cfg) (es : List Event) (i : ℕ) :
    ∀ s : TGameState, spentId i s → spentId i (applyEventsT cfg s es) := by
  induction es with
  | nil => exact fun s h => h
  | cons e rest ih =>
      intro s h
      exact ih (handleEventT cfg s e) (spentId_handleEventT cfg s e i h)

theorem spentId_tickT (cfg : Cfg) (s : TGameState) (i : ℕ)
    (h : spentId i s) : spentId i (tickT cfg s) := by
  unfold tickT
  split
  · refine ⟨h.1, ?_⟩
    intro p hp hpi
    simp only at hp
    rcases mem_move_pipesT.mp hp with ⟨q, hq, -, rfl⟩
    have hcx := h.2 q hq hpi
    rw [move_centerx]
    omega
  · exact h

theorem fst_eq_unique {l : List TPipe} (h : (l.map (fun p => p.1)).Nodup) :
    ∀ p ∈ l, ∀ q ∈ l, p.1 = q.1 → p = q :=
  List.inj_on_of_nodup_map h

theorem scoredIds_sublist_ids (s : TGameState) :
    (scoredIds s).Sublist (pipeIds s) := by
  unfold scoredIds
  split
  · exact List.Sublist.trans ((List.filter_sublist _).map _)
      (move_pipesT_ids_sublist s.pipes)
  · exact List.nil_sublist _

theorem scoredIds_count_le_one (s : TGameState) (h : InvT s) (i : ℕ) :
    (scoredIds s).count i ≤ 1 := by
  exact List.nodup_iff_count_le_one.mp ((scoredIds_sublist_ids s).nodup h.nodup) i

theorem scoredIds_count_zero (s : TGameState) (i : ℕ) (hInv : InvT s)
    (hsp : spentId i s) : (scoredIds s).count i = 0 := by
  rw [List.count_eq_zero]
  intro hmem
  unfold scoredIds at hmem
  split at hmem
  · rcases List.mem_map.mp hmem with ⟨p', hp', rfl⟩
    rcases List.mem_filter.mp hp' with ⟨hp'mem, hcx⟩
    rcases mem_move_pipesT.mp hp'mem with ⟨p, hp, -, rfl⟩
    have h53 := hsp.2 p hp rfl
    have hcx' : (p.2.1.move (-3) 0).centerx = s.bird.centerx := by
      simpa using hcx
    rw [move_centerx, hInv.bcx] at hcx'
    omega
  · exact absurd hmem (List.not_mem_nil _)

theorem scored_spentId_tickT (cfg : Cfg) (s : TGameState) (i : ℕ)
    (hInv : InvT s) (hmem : i ∈ scoredIds s) : spentId i (tickT cfg s) := by
  unfold scoredIds at hmem
  split at hmem
  case isTrue hgate =>
    rcases List.mem_map.mp hmem with ⟨p', hp', rfl⟩
    rcases List.mem_filter.mp hp' with ⟨hp'mem, hcx⟩
    have hnodup : ((move_pipesT s.pipes).map (fun p => p.1)).Nodup :=
      (move_pipesT_ids_sublist s.pipes).nodup hInv.nodup
    have hcx' : p'.2.1.centerx = 50 := by
      have := of_decide_eq_true hcx
      rw [hInv.bcx] at this
      exact this
    unfold tickT
    rw [if_pos hgate]
    refine ⟨?_, ?_⟩
    · rcases mem_move_pipesT.mp hp'mem with ⟨p, hp, -, rfl⟩
      exact hInv.below p hp
    · intro q hq hqi
      simp only at hq
      have : q = p' := fst_eq_unique hnodup q hq p' hp'mem hqi
      rw [this, hcx']
      omega
  case isFalse =>
    exact absurd hmem (List.not_mem_nil _)

theorem tickT_score (cfg : Cfg) (s : TGameState) :
    (tickT cfg s).score = s.score + ((scoredIds s).length : ℤ) := by
  unfold tickT scoredIds
  split
  · simp
  · simp

theorem countRun_le_one_aux (cfg : Cfg) (i : ℕ) (frames : List (List Event)) :
    ∀ s : TGameState, InvT s →
      countRun cfg i s frames ≤ 1 ∧
        (spentId i s → countRun cfg i s frames = 0) := by
  induction frames with
  | nil => exact fun s _ => ⟨Nat.zero_le _, fun _ => rfl⟩
  | cons es rest ih =>
      intro s hInv
      have hInv1 : InvT (applyEventsT cfg s es) := InvT_applyEventsT cfg es s hInv
      have hInvF : InvT (frameT cfg s es) := InvT_tickT cfg _ hInv1
      have hcnt := scoredIds_count_le_one (applyEventsT cfg s es) hInv1 i
      constructor
      · by_cases hz : (scoredIds (applyEventsT cfg s es)).count i = 0
        · simp only [countRun, hz, Nat.zero_add]
          exact (ih _ hInvF).1
        · have h1 : (scoredIds (applyEventsT cfg s es)).count i = 1 :=
            le_antisymm hcnt (Nat.one_le_iff_ne_zero.mpr hz)
          have hmem : i ∈ scoredIds (applyEventsT cfg s es) :=
            List.count_pos_iff.mp (by omega)
          have hrest : countRun cfg i (frameT cfg s es) rest = 0 :=
            (ih _ hInvF).2 (scored_spentId_tickT cfg _ i hInv1 hmem)
          simp only [countRun, h1, hrest]
          omega
      · intro hsp
        have hsp1 : spentId i (applyEventsT cfg s es) :=
          spentId_applyEventsT cfg es i s hsp
        have hz := scoredIds_count_zero (applyEventsT cfg s es) i hInv1 hsp1
        have hrest : countRun cfg i (frameT cfg s es) rest = 0 :=
          (ih _ hInvF).2 (spentId_tickT cfg _ i hsp1)
        simp only [countRun, hz, hrest]

theorem erase_move_pipesT (l : List TPipe) :
    (move_pipesT l).map eraseP = move_pipes (l.map eraseP) := by
  unfold move_pipesT move_pipes
  rw [List.filter_map, List.map_map, List.map_map]
  rfl

theorem erase_routeGatedT (cfg : Cfg) (s : TGameState) (e : Event) :
    eraseS (routeGatedT cfg s e) = routeGated cfg (eraseS s) e := by
  unfold routeGatedT routeGated reset_gameT reset_game
  cases hga : s.game_active <;> cases hui : s.show_volume_ui <;>
    rcases e with key | height <;> (try cases key) <;>
    simp_all [eraseS, eraseP]

theorem erase_settingsKeysT (s : TGameState) (key : Key) :
    eraseS (settingsKeysT s key) = settingsKeys (eraseS s) key := by
  unfold settingsKeysT settingsKeys
  cases hu : s.show_volume_ui <;> cases key <;> simp [eraseS, hu]

theorem erase_handleEventT (cfg : Cfg) (s : TGameState) (e : Event) :
    eraseS (handleEventT cfg s e) = handleEvent cfg (eraseS s) e := by
  rcases e with key | height
  · show eraseS (settingsKeysT (routeGatedT cfg s (.keyDown key)) key)
      = settingsKeys (routeGated cfg (eraseS s) (.keyDown key)) key
    rw [erase_settingsKeysT, erase_routeGatedT]
  · exact erase_routeGatedT cfg s (.spawnPipe height)

theorem scoredIds_length_eq (s : TGameState) (bird : Rect)
    (hb : bird.centerx = s.bird.centerx)
    (hg : (s.game_active && !s.show_volume_ui) = true) :
    (scoredIds s).length = scoreMatches bird ((move_pipesT s.pipes).map eraseP) := by
  unfold scoredIds scoreMatches
  rw [if_pos hg, List.length_map, List.filter_map, List.length_map]
  congr 1
  apply List.filter_congr
  intro p hp
  simp [Function.comp, eraseP, hb]

theorem erase_tickT (cfg : Cfg) (s : TGameState) :
    eraseS (tickT cfg s) = tick cfg (eraseS s) := by
  unfold tickT tick
  by_cases hg : (s.game_active && !s.show_volume_ui) = true
  · rw [if_pos hg,
      if_pos (show ((eraseS s).game_active && !(eraseS s).show_volume_ui) = true from hg)]
    show eraseS _ = _
    unfold eraseS
    dsimp only
    congr 1 <;>
      first
        | rfl
        | (rw [← erase_move_pipesT]
           all_goals
             first
               | rfl
               | exact congrArg (fun n : ℕ => s.score + (n : ℤ))
                   (scoredIds_length_eq s _ rfl hg))
  · rw [if_neg hg,
      if_neg (show ¬((eraseS s).game_active && !(eraseS s).show_volume_ui) = true from hg)]

/-- Initial instrumented state: bird centered at (50, 256), empty field,
Playing, overlay closed, first ghost identifier 0. -/
def initTState : TGameState :=
  { bird := rectCenter cfg0.birdW cfg0.birdH 50 (SCREEN_HEIGHT / 2)
    bird_movement := 0
    pipes := []
    next_id := 0
    base_x := 0
    score := 0
    game_active := true
    high_score := 0
    music_volume := 0.4
    sfx_volume := 0.5
    show_volume_ui := false
    hs_file := none }

/-- C6: over any run from a well-formed state, each obstacle pair (tracked
by its ghost identifier) scores in at most one frame — it cannot score
twice — and each tick increments the (source-semantics) score by exactly
the number of pairs scoring in that tick. -/
theorem c6_pair_scores_at_most_once (cfg : Cfg) (i : ℕ) (s : TGameState)
    (hInv : InvT s) (frames : List (List Event)) :
    countRun cfg i s frames ≤ 1 ∧
      (tick cfg (eraseS s)).score
        = (eraseS s).score + ((scoredIds s).length : ℤ) := by
  refine ⟨(countRun_le_one_aux cfg i frames s hInv).1, ?_⟩
  rw [← erase_tickT]
  show (tickT cfg s).score = s.score + ((scoredIds s).length : ℤ)
  exact tickT_score cfg s

/-- C6 witness: the at-most-once bound and the per-tick score increment at
the initial instrumented state over a concrete three-frame run. -/
theorem c6_pair_scores_at_most_once_witness :
    countRun cfg0 0 initTState [[Event.spawnPipe 200], [], []] ≤ 1 ∧
      (tick cfg0 (eraseS initTState)).score
        = (eraseS initTState).score + ((scoredIds initTState).length : ℤ) :=
  c6_pair_scores_at_most_once cfg0 0 initTState
    ⟨by decide, by decide, by decide⟩ [[Event.spawnPipe 200], [], []]
